import Mathlib

/-!
Shallow embedding of the Foliotech application-form pipeline:
the zod validation schemas (src/unnamed/part_001, second file), the
Supabase-backed submission/draft/query services (src/unnamed/part_001,
first file) and the Firebase-backed submission hook
(src/unnamed/part_000).  Remote services are modelled by passing their
responses as explicit parameters; each operation returns the result
value it produces together with the list of remote calls it issues.
-/

namespace Folio

/-! ## Characters and JS regex primitives -/

/-- The character class matched by the JS regex escape backslash-s
(ECMAScript WhiteSpace and LineTerminator code points). -/
def isJsWhitespace (c : Char) : Bool :=
  c == ' ' || c == '\t' || c == '\n' || c.val == 11 || c.val == 12 ||
  c == '\r' || c.val == 0xa0 || c.val == 0x1680 ||
  (0x2000 ≤ c.val && c.val ≤ 0x200a) || c.val == 0x2028 ||
  c.val == 0x2029 || c.val == 0x202f || c.val == 0x205f ||
  c.val == 0x3000 || c.val == 0xfeff

/-- Test of the name-field regex of personalInfoSchema,
`[a-zA-Z` backslash-`s]*` anchored on both sides: every character is an
ASCII letter or JS whitespace. -/
def nameRegexTest (s : String) : Bool :=
  s.data.all (fun c => c.isAlpha || isJsWhitespace c)

/-- Splits a character list at every occurrence of the separator
(structural version of string splitting, so that it evaluates in the
kernel). -/
def splitOnChar (sep : Char) : List Char → List (List Char)
  | [] => [[]]
  | c :: rest =>
    match splitOnChar sep rest with
    | [] => [[]]
    | cur :: parts =>
      if c == sep then [] :: cur :: parts else (c :: cur) :: parts

/-- Test of the email regex of submitApplicationForm:
one or more characters that are neither whitespace nor at-sign, an
at-sign, the same class again, a dot, the same class again.  Because the
class excludes the at-sign, a match forces exactly one at-sign; the dot
of the pattern may be any dot of the domain that has at least one
character on each side. -/
def emailRegexTest (s : String) : Bool :=
  match splitOnChar '@' s.data with
  | [localPart, domain] =>
    localPart.length > 0 &&
    localPart.all (fun c => !isJsWhitespace c) &&
    domain.all (fun c => !isJsWhitespace c) &&
    ((domain.drop 1).dropLast.contains '.')
  | _ => false

/-- Test of the phone regex of submitApplicationForm, `[0-9+]+` anchored:
nonempty, digits and plus signs only. -/
def phoneCharsTest (s : String) : Bool :=
  s.length > 0 && s.data.all (fun c => c.isDigit || c == '+')

/-- Test of the E.164-style phone regex of the zod schemas: a plus sign,
one digit 1-9, then 1 to 14 further digits. -/
def phoneE164Test (s : String) : Bool :=
  match s.data with
  | '+' :: c :: rest =>
    ('1' ≤ c && c ≤ '9') && rest.length ≥ 1 && rest.length ≤ 14 &&
      rest.all Char.isDigit
  | _ => false

/-- Test of the certificate-year regex of academicBackgroundSchema:
exactly four digits. -/
def yearRegexTest (s : String) : Bool :=
  s.length == 4 && s.data.all Char.isDigit

/-- Models String.prototype.trim: drop JS whitespace from both ends. -/
def jsTrim (s : String) : String :=
  String.mk (((s.data.dropWhile isJsWhitespace).reverse.dropWhile
    isJsWhitespace).reverse)

/-- Models String.prototype.toLowerCase on the ASCII range (the inputs
the services handle): lowercase every character. -/
def jsToLowerCase (s : String) : String :=
  String.mk (s.data.map Char.toLower)

/-! ## Calendar dates -/

/-- A calendar date, as produced by parsing a date-only string: the
construct `new Date` on a YYYY-MM-DD string yields midnight UTC of that
day, so date-only values compare like their (year, month, day) triples. -/
structure JsDate where
  year : Nat
  month : Nat
  day : Nat
deriving DecidableEq, Repr

/-- Numeric comparison of two date-only values (midnight UTC instants
compare lexicographically on year, month, day). -/
def JsDate.le (a b : JsDate) : Bool :=
  a.year < b.year || (a.year == b.year &&
    (a.month < b.month || (a.month == b.month && a.day ≤ b.day)))

def isLeapYear (y : Nat) : Bool :=
  (y % 4 == 0 && y % 100 != 0) || y % 400 == 0

def daysInMonth (y m : Nat) : Nat :=
  if m == 2 then (if isLeapYear y then 29 else 28)
  else if m == 4 || m == 6 || m == 9 || m == 11 then 30
  else 31

/-- Numeric value of a nonempty all-digit character list. -/
def digitsToNat? (l : List Char) : Option Nat :=
  if l ≠ [] && l.all Char.isDigit then
    some (l.foldl (fun n c => 10 * n + (c.toNat - '0'.toNat)) 0)
  else none

/-- Parses a YYYY-MM-DD string to a calendar date; any other shape is a
parse failure (in JS an invalid date, which fails every comparison). -/
def parseDateOnly (s : String) : Option JsDate :=
  match splitOnChar '-' s.data with
  | [ys, ms, ds] =>
    match digitsToNat? ys, digitsToNat? ms, digitsToNat? ds with
    | some y, some m, some d =>
      if 1 ≤ m && m ≤ 12 && 1 ≤ d && d ≤ daysInMonth y m then
        some ⟨y, m, d⟩
      else none
    | _, _, _ => none
  | _ => none

/-- The module-level cutoff of the validation file:
`new Date` of the string 2025-02-27, then setFullYear to
getFullYear minus 18. -/
def minBirthDate : JsDate :=
  let base : JsDate := ⟨2025, 2, 27⟩
  { base with year := base.year - 18 }

/-- The dateOfBirth refinement of personalInfoSchema: parse the input
and require it to be on or before minBirthDate; an unparsable input
fails. -/
def dateOfBirthCheck (s : String) : Bool :=
  match parseDateOnly s with
  | some dob => dob.le minBirthDate
  | none => false

/-! ## The form data model (types inferred by the zod schemas) -/

inductive Gender | male | female | other
deriving DecidableEq, Repr

inductive EducationLevel | none | primary | js | jsse | ssce | tertiary
deriving DecidableEq, Repr

inductive TertiaryEducation
  | none | certificate | national_diploma | degree | other
deriving DecidableEq, Repr

inductive StudyMode | fullTime | partTime | weekend
deriving DecidableEq, Repr

inductive SponsorshipType | self | organization | guardian
deriving DecidableEq, Repr

structure Disability where
  hasDisability : Bool
  details : Option String
deriving DecidableEq, Repr

structure PersonalInfo where
  firstName : String
  lastName : String
  email : String
  phone : String
  dateOfBirth : String
  gender : Gender
  address : String
  nationality : String
  stateOfOrigin : String
  religion : Option String
  disability : Disability
deriving DecidableEq, Repr

structure Certificate where
  type : String
  grade : String
  year : String
deriving DecidableEq, Repr

structure AcademicBackground where
  educationLevel : EducationLevel
  tertiaryEducation : Option TertiaryEducation
  certificates : List Certificate
deriving DecidableEq, Repr

structure ProgramSelection where
  program : String
  course : String
  startDate : String
  studyMode : StudyMode
  previousExperience : Option String
  careerGoals : String
deriving DecidableEq, Repr

structure SponsorDetails where
  name : String
  relationship : String
  contact : String
deriving DecidableEq, Repr

structure Accommodation where
  needsAccommodation : Bool
  sponsorshipType : SponsorshipType
  sponsorDetails : SponsorDetails
deriving DecidableEq, Repr

structure Referee where
  name : String
  email : String
  phone : String
  relationship : String
  organization : String
  position : String
deriving DecidableEq, Repr

structure ApplicationFormData where
  personalInfo : PersonalInfo
  academicBackground : AcademicBackground
  programSelection : ProgramSelection
  accommodation : Accommodation
  referee : Referee
deriving DecidableEq, Repr

/-! ## The validation schemas as issue-producing checks

Each zod schema is embedded as a function from a (type-correct) value to
the list of issues its checks raise; the value validates exactly when
the list is empty.  String checks run in declaration order and all of
them report (zod string checks are non-aborting). -/

/-- An issue: a path into the record and a human-readable message. -/
structure Issue where
  path : List String
  message : String
deriving DecidableEq, Repr

/-- Messages raised by the firstName checks of personalInfoSchema:
min 2, max 50, then the letters-and-whitespace regex. -/
def firstNameIssues (s : String) : List String :=
  (if s.length < 2 then ["First name must be at least 2 characters"]
   else []) ++
  (if 50 < s.length then ["First name must not exceed 50 characters"]
   else []) ++
  (if nameRegexTest s then []
   else ["First name can only contain letters and spaces"])

/-- Messages raised by the lastName checks of personalInfoSchema. -/
def lastNameIssues (s : String) : List String :=
  (if s.length < 2 then ["Last name must be at least 2 characters"]
   else []) ++
  (if 50 < s.length then ["Last name must not exceed 50 characters"]
   else []) ++
  (if nameRegexTest s then []
   else ["Last name can only contain letters and spaces"])

/-- Models the external zod email check (z.string().email, library code
outside this repository): an email-shape test.  No claim depends on its
internal automaton. -/
def zodEmailTest (s : String) : Bool :=
  emailRegexTest s

def stringMinIssue (n : Nat) (msg : String) (s : String) : List String :=
  if s.length < n then [msg] else []

def stringMaxIssue (n : Nat) (msg : String) (s : String) : List String :=
  if n < s.length then [msg] else []

/-- Issues of personalInfoSchema on a type-correct value, with paths
relative to the section. -/
def personalInfoIssues (p : PersonalInfo) : List Issue :=
  (firstNameIssues p.firstName).map (fun m => ⟨["firstName"], m⟩) ++
  (lastNameIssues p.lastName).map (fun m => ⟨["lastName"], m⟩) ++
  (if zodEmailTest p.email then []
   else [⟨["email"], "Invalid email address"⟩]) ++
  (if phoneE164Test p.phone then []
   else [⟨["phone"],
     "Please enter a valid phone number (e.g., +234...)"⟩]) ++
  (if dateOfBirthCheck p.dateOfBirth then []
   else [⟨["dateOfBirth"],
     "You must be at least 18 years old by February 27, 2025"⟩]) ++
  (stringMinIssue 10 "Please provide a complete address" p.address).map
    (fun m => ⟨["address"], m⟩) ++
  (stringMaxIssue 200 "Address is too long" p.address).map
    (fun m => ⟨["address"], m⟩) ++
  (stringMinIssue 2 "Please specify your nationality" p.nationality).map
    (fun m => ⟨["nationality"], m⟩) ++
  (stringMinIssue 2 "Please specify your state of origin"
    p.stateOfOrigin).map (fun m => ⟨["stateOfOrigin"], m⟩)

/-- Issues of one certificate entry of academicBackgroundSchema. -/
def certificateIssues (c : Certificate) : List Issue :=
  (stringMinIssue 2 "Certificate type is required" c.type).map
    (fun m => ⟨["type"], m⟩) ++
  (stringMinIssue 1 "Grade is required" c.grade).map
    (fun m => ⟨["grade"], m⟩) ++
  (if yearRegexTest c.year then []
   else [⟨["year"], "Please enter a valid year"⟩])

/-- Issues of academicBackgroundSchema on a type-correct value (the two
enum fields cannot fail on type-correct input). -/
def academicBackgroundIssues (a : AcademicBackground) : List Issue :=
  (a.certificates.enum.map (fun pr =>
    (certificateIssues pr.2).map (fun i =>
      ⟨"certificates" :: toString pr.1 :: i.path, i.message⟩))).flatten

/-- Issues of programSelectionSchema on a type-correct value. -/
def programSelectionIssues (p : ProgramSelection) : List Issue :=
  (stringMinIssue 1 "Please select a program" p.program).map
    (fun m => ⟨["program"], m⟩) ++
  (stringMinIssue 1 "Please select a course" p.course).map
    (fun m => ⟨["course"], m⟩) ++
  (stringMinIssue 1 "Please select a start date" p.startDate).map
    (fun m => ⟨["startDate"], m⟩) ++
  (stringMinIssue 10 "Please describe your career goals"
    p.careerGoals).map (fun m => ⟨["careerGoals"], m⟩) ++
  (stringMaxIssue 500 "Career goals must not exceed 500 characters"
    p.careerGoals).map (fun m => ⟨["careerGoals"], m⟩)

/-- Issues of accommodationSchema on a type-correct value. -/
def accommodationIssues (a : Accommodation) : List Issue :=
  (stringMinIssue 2 "Sponsor name is required"
    a.sponsorDetails.name).map
    (fun m => ⟨["sponsorDetails", "name"], m⟩) ++
  (stringMinIssue 2 "Please specify the relationship"
    a.sponsorDetails.relationship).map
    (fun m => ⟨["sponsorDetails", "relationship"], m⟩) ++
  (stringMinIssue 5 "Please provide contact information"
    a.sponsorDetails.contact).map
    (fun m => ⟨["sponsorDetails", "contact"], m⟩)

/-- Issues of refereeSchema on a type-correct value.  The email field
carries both the zod email check and a nonempty refinement. -/
def refereeIssues (r : Referee) : List Issue :=
  (stringMinIssue 2 "Referee name is required" r.name).map
    (fun m => ⟨["name"], m⟩) ++
  (stringMaxIssue 100 "Referee name is too long" r.name).map
    (fun m => ⟨["name"], m⟩) ++
  (if zodEmailTest r.email then []
   else [⟨["email"], "Invalid email address"⟩]) ++
  (if r.email == "" then [⟨["email"], "Referee email is required"⟩]
   else []) ++
  (if phoneE164Test r.phone then []
   else [⟨["phone"], "Please enter a valid phone number"⟩]) ++
  (stringMinIssue 2 "Please specify the relationship"
    r.relationship).map (fun m => ⟨["relationship"], m⟩) ++
  (stringMinIssue 2 "Organization name is required" r.organization).map
    (fun m => ⟨["organization"], m⟩) ++
  (stringMinIssue 2 "Position is required" r.position).map
    (fun m => ⟨["position"], m⟩)

/-- The per-section issues of the aggregate applicationSchema object,
each prefixed with its section name. -/
def sectionIssues (a : ApplicationFormData) : List Issue :=
  (personalInfoIssues a.personalInfo).map
    (fun i => ⟨"personalInfo" :: i.path, i.message⟩) ++
  (academicBackgroundIssues a.academicBackground).map
    (fun i => ⟨"academicBackground" :: i.path, i.message⟩) ++
  (programSelectionIssues a.programSelection).map
    (fun i => ⟨"programSelection" :: i.path, i.message⟩) ++
  (accommodationIssues a.accommodation).map
    (fun i => ⟨"accommodation" :: i.path, i.message⟩) ++
  (refereeIssues a.referee).map
    (fun i => ⟨"referee" :: i.path, i.message⟩)

/-- The cross-field issue of the refine step of applicationSchema. -/
def refereeEmailIssue : Issue :=
  ⟨["referee", "email"],
   "Referee\x27s email must be different from your email"⟩

/-- Issues of the aggregate applicationSchema: the per-section object
issues, then the refine step, which on type-correct input always runs
and rejects a referee email equal to the applicant email, attaching its
issue at the referee email path. -/
def applicationIssues (a : ApplicationFormData) : List Issue :=
  sectionIssues a ++
  (if a.referee.email == a.personalInfo.email then [refereeEmailIssue]
   else [])

/-! ## Firebase-backed submission hook (src/unnamed/part_000)

Remote round trips are modelled by passing each addDoc response as a
parameter; the hook returns its result, the calls it issued, the toasts
it showed and the final useState pair. -/

structure User where
  uid : String
  email : String
  displayName : String
deriving DecidableEq, Repr

structure SubmissionResult where
  success : Bool
  message : String
  applicationId : Option String
deriving DecidableEq, Repr

structure FireMetadata where
  userEmail : String
  userName : String
  submissionDate : String
  lastModified : String
deriving DecidableEq, Repr

/-- The document written to the applications collection: the form data
spread together with userId, status pending and the metadata object
(the serverTimestamp sentinel of submittedAt carries no data). -/
structure FireAppDoc where
  formData : ApplicationFormData
  userId : String
  status : String
  metadata : FireMetadata
deriving DecidableEq, Repr

/-- The link document written to the per-user applications collection. -/
structure FireLinkDoc where
  applicationId : String
  programId : String
  courseId : String
  status : String
deriving DecidableEq, Repr

inductive FirestoreDoc
  | application (d : FireAppDoc)
  | userLink (d : FireLinkDoc)
deriving DecidableEq, Repr

/-- A remote Firestore round trip issued by the hook. -/
inductive FirestoreCall
  | addDoc (collectionPath : String) (doc : FirestoreDoc)
deriving DecidableEq, Repr

def FirestoreCall.collectionPath : FirestoreCall → String
  | .addDoc p _ => p

/-- Response of one addDoc round trip: the assigned document id, or a
rejection carrying an error message. -/
inductive FireResult
  | ok (id : String)
  | err (message : String)
deriving DecidableEq, Repr

inductive ToastMsg
  | success (m : String)
  | error (m : String)
deriving DecidableEq, Repr

/-- The useState pair of useApplicationSubmit. -/
structure HookState where
  isSubmitting : Bool
  error : Option String
deriving DecidableEq, Repr

structure HandleSubmitOutput where
  /-- ok r means the promise resolved with result r; error m means the
  call threw m to the caller. -/
  result : Except String SubmissionResult
  calls : List FirestoreCall
  toasts : List ToastMsg
  state : HookState
deriving Repr

/-- handleSubmit of useApplicationSubmit.  user is the ambient auth
context, st the hook state when the call starts, resp1 and resp2 the
responses of the two addDoc round trips (the second matters only when
the first succeeds), now the wall-clock ISO string.  The absent-user
guard throws before the try block, so an absent user is a thrown fault,
not a returned result; the incoming hook state is consulted nowhere. -/
def handleSubmit (user : Option User) (st : HookState)
    (formData : ApplicationFormData) (resp1 resp2 : FireResult)
    (now : String) : HandleSubmitOutput :=
  match user with
  | none =>
    { result := Except.error "You must be signed in to submit an application",
      calls := [], toasts := [], state := st }
  | some u =>
    let appDoc : FireAppDoc :=
      { formData := formData, userId := u.uid, status := "pending",
        metadata := { userEmail := u.email, userName := u.displayName,
                      submissionDate := now, lastModified := now } }
    let appCall := FirestoreCall.addDoc "applications" (.application appDoc)
    match resp1 with
    | .err m =>
      { result := Except.ok
          { success := false, message := m, applicationId := none },
        calls := [appCall], toasts := [.error m],
        state := { isSubmitting := false, error := some m } }
    | .ok docRefId =>
      let linkDoc : FireLinkDoc :=
        { applicationId := docRefId,
          programId := formData.programSelection.program,
          courseId := formData.programSelection.course,
          status := "pending" }
      let linkCall := FirestoreCall.addDoc
        ("users/" ++ u.uid ++ "/applications") (.userLink linkDoc)
      match resp2 with
      | .err m =>
        { result := Except.ok
            { success := false, message := m, applicationId := none },
          calls := [appCall, linkCall], toasts := [.error m],
          state := { isSubmitting := false, error := some m } }
      | .ok _ =>
        { result := Except.ok
            { success := true,
              message := "Application submitted successfully",
              applicationId := some docRefId },
          calls := [appCall, linkCall],
          toasts := [.success "Application submitted successfully!"],
          state := { isSubmitting := false, error := none } }

/-- The prefix of handleSubmit up to its first await: the hook state at
the moment the first remote response is still outstanding, and the calls
already issued by then.  Lets executions be expressed in which a further
submit request arrives while the first insert is in flight. -/
def handleSubmitInFlight (user : Option User) (st : HookState)
    (formData : ApplicationFormData) (now : String) :
    HookState × List FirestoreCall :=
  match user with
  | none => (st, [])
  | some u =>
    let appDoc : FireAppDoc :=
      { formData := formData, userId := u.uid, status := "pending",
        metadata := { userEmail := u.email, userName := u.displayName,
                      submissionDate := now, lastModified := now } }
    ({ isSubmitting := true, error := none },
     [FirestoreCall.addDoc "applications" (.application appDoc)])

/-! ## Supabase-backed services (src/unnamed/part_001, first file) -/

structure SupaUser where
  id : String
deriving DecidableEq, Repr

structure SupabaseError where
  code : String
  message : String
deriving DecidableEq, Repr

inductive InsertResult
  | ok (id : String)
  | err (e : SupabaseError)
deriving DecidableEq, Repr

structure SanitizedPersonalInfo where
  firstName : String
  lastName : String
  email : String
  phone : String
deriving DecidableEq, Repr

/-- Row inserted by submitApplicationForm: the spread form data plus the
snake-case sanitized personal info and status pending. -/
structure SubmitFormRow where
  formData : ApplicationFormData
  personal_info : SanitizedPersonalInfo
  status : String
deriving DecidableEq, Repr

/-- Row inserted by submitApplication. -/
structure SubmitRow where
  user_id : String
  personal_info : PersonalInfo
  academic_background : AcademicBackground
  program_selection : ProgramSelection
  accommodation : Accommodation
  referee : Referee
  status : String
  created_at : String
  updated_at : String
deriving DecidableEq, Repr

/-- A section of a draft row: the section value, or the empty object
that the code substitutes for a missing section. -/
inductive DraftSection (α : Type)
  | emptyObj
  | full (a : α)
deriving DecidableEq, Repr

/-- Row written by saveDraft; created_at is set only on the insert
path. -/
structure DraftRow where
  user_id : String
  personal_info : DraftSection PersonalInfo
  academic_background : DraftSection AcademicBackground
  program_selection : DraftSection ProgramSelection
  accommodation : DraftSection Accommodation
  referee : DraftSection Referee
  status : String
  updated_at : String
  created_at : Option String
deriving DecidableEq, Repr

inductive SupaRow
  | submitFormRow (r : SubmitFormRow)
  | submitRow (r : SubmitRow)
  | draftRow (r : DraftRow)
deriving DecidableEq, Repr

/-- A remote Supabase round trip; filters are the eq constraints in
application order. -/
inductive SupaCall
  | insert (table : String) (row : SupaRow)
  | update (table : String) (filters : List (String × String)) (row : SupaRow)
  | selectAll (table : String) (filters : List (String × String))
deriving DecidableEq, Repr

def SupaCall.tableOf : SupaCall → String
  | .insert t _ => t
  | .update t _ _ => t
  | .selectAll t _ => t

def SupaCall.isInsert : SupaCall → Bool
  | .insert _ _ => true
  | _ => false

structure ApplicationResponse where
  success : Bool
  message : String
  applicationId : Option String
  error : Option String
deriving DecidableEq, Repr

/-- The sanitization step of submitApplicationForm. -/
def sanitizedPersonalInfoOf (p : PersonalInfo) : SanitizedPersonalInfo :=
  { firstName := jsTrim p.firstName, lastName := jsTrim p.lastName,
    email := jsToLowerCase (jsTrim p.email), phone := jsTrim p.phone }

/-- The three input checks submitApplicationForm performs before its
insert, in order: required personal fields nonempty (JS truthiness of
the strings), the email regex, the phone regex. -/
def submitFormChecks (formData : ApplicationFormData) : Bool :=
  let p := formData.personalInfo
  !(p.firstName == "" || p.lastName == "" ||
    p.email == "" || p.phone == "") &&
  emailRegexTest p.email && phoneCharsTest p.phone

def submitApplicationForm (formData : ApplicationFormData)
    (resp : InsertResult) : ApplicationResponse × List SupaCall :=
  let p := formData.personalInfo
  if p.firstName == "" || p.lastName == "" ||
      p.email == "" || p.phone == "" then
    ({ success := false,
       message := "Missing required fields in personal information.",
       applicationId := none, error := some "Validation Error" }, [])
  else if !(emailRegexTest p.email) then
    ({ success := false, message := "Invalid email format.",
       applicationId := none, error := some "Validation Error" }, [])
  else if !(phoneCharsTest p.phone) then
    ({ success := false, message := "Invalid phone number format.",
       applicationId := none, error := some "Validation Error" }, [])
  else
    let row : SubmitFormRow :=
      { formData := formData,
        personal_info := sanitizedPersonalInfoOf p,
        status := "pending" }
    let calls := [SupaCall.insert "applications" (.submitFormRow row)]
    match resp with
    | .err e =>
      if e.code == "23505" then
        ({ success := false, message := "Duplicate submission detected.",
           applicationId := none, error := some e.message }, calls)
      else
        ({ success := false, message := "Supabase error: " ++ e.message,
           applicationId := none, error := some e.message }, calls)
    | .ok id =>
      ({ success := true,
         message := "Application submitted successfully!",
         applicationId := some id, error := none }, calls)

structure SubmitResult where
  success : Bool
  message : String
  applicationId : Option String
deriving DecidableEq, Repr

/-- submitApplication.  The absent-user throw sits inside the try block,
so its catch converts it into a returned failure result; an insert error
is likewise rethrown and caught. -/
def submitApplication (user : Option SupaUser)
    (formData : ApplicationFormData) (resp : InsertResult)
    (now : String) : SubmitResult × List SupaCall × List ToastMsg :=
  match user with
  | none =>
    ({ success := false,
       message := "You must be signed in to submit an application",
       applicationId := none }, [],
     [.error "You must be signed in to submit an application"])
  | some u =>
    let row : SubmitRow :=
      { user_id := u.id, personal_info := formData.personalInfo,
        academic_background := formData.academicBackground,
        program_selection := formData.programSelection,
        accommodation := formData.accommodation,
        referee := formData.referee, status := "pending",
        created_at := now, updated_at := now }
    let calls := [SupaCall.insert "applications" (.submitRow row)]
    match resp with
    | .err e =>
      ({ success := false, message := e.message, applicationId := none },
       calls, [.error e.message])
    | .ok id =>
      ({ success := true,
         message := "Application submitted successfully",
         applicationId := some id }, calls,
       [.success "Application submitted successfully!"])

structure SaveDraftResult where
  success : Bool
  draftId : String
deriving DecidableEq, Repr

/-- The default of `section or else empty object` applied to each field
of the draft payload. -/
def optSection {α : Type} : Option α → DraftSection α
  | some a => .full a
  | none => .emptyObj

structure PartialApplicationFormData where
  personalInfo : Option PersonalInfo
  academicBackground : Option AcademicBackground
  programSelection : Option ProgramSelection
  accommodation : Option Accommodation
  referee : Option Referee
deriving DecidableEq, Repr

/-- saveDraft.  Its catch block rethrows, hence the Except result.  The
no-draftId branch inserts a fresh row with created_at set; the draftId
branch updates the row matching both the record id and the caller id,
issuing no insert. -/
def saveDraft (user : Option SupaUser)
    (formData : PartialApplicationFormData) (draftId : Option String)
    (resp : InsertResult) (now : String) :
    Except String SaveDraftResult × List SupaCall :=
  match user with
  | none => (Except.error "You must be signed in to save a draft", [])
  | some u =>
    let draftData : DraftRow :=
      { user_id := u.id,
        personal_info := optSection formData.personalInfo,
        academic_background := optSection formData.academicBackground,
        program_selection := optSection formData.programSelection,
        accommodation := optSection formData.accommodation,
        referee := optSection formData.referee,
        status := "draft", updated_at := now, created_at := none }
    let calls :=
      match draftId with
      | some d =>
        [SupaCall.update "applications" [("id", d), ("user_id", u.id)]
          (.draftRow draftData)]
      | none =>
        [SupaCall.insert "applications"
          (.draftRow { draftData with created_at := some now })]
    match resp with
    | .err e => (Except.error e.message, calls)
    | .ok id => (Except.ok { success := true, draftId := id }, calls)

/-- A stored row as seen by the ownership claims: its record id and its
owner id (the filters used touch no other column). -/
structure StoredRow where
  id : String
  user_id : String
deriving DecidableEq, Repr

def rowField (r : StoredRow) (k : String) : Option String :=
  if k == "id" then some r.id
  else if k == "user_id" then some r.user_id
  else none

/-- A row satisfies a filter list when every eq constraint matches. -/
def rowMatches (r : StoredRow) (fs : List (String × String)) : Bool :=
  fs.all (fun f => rowField r f.1 == some f.2)

inductive QueryResult
  | ok (rows : List StoredRow)
  | err (e : SupabaseError)
deriving DecidableEq, Repr

inductive SingleResult
  | ok (row : StoredRow)
  | err (e : SupabaseError)
deriving DecidableEq, Repr

/-- getUserApplications: a select on applications filtered by the caller
id (ordered by created_at descending, which adds no filter).  Errors are
rethrown. -/
def getUserApplications (user : Option SupaUser) (resp : QueryResult) :
    Except String (List StoredRow) × List SupaCall :=
  match user with
  | none =>
    (Except.error "You must be signed in to view applications", [])
  | some u =>
    let calls := [SupaCall.selectAll "applications" [("user_id", u.id)]]
    match resp with
    | .err e => (Except.error e.message, calls)
    | .ok rows => (Except.ok rows, calls)

/-- getApplicationById: a single-row select filtered by the record id
and the caller id.  Errors are rethrown. -/
def getApplicationById (user : Option SupaUser) (applicationId : String)
    (resp : SingleResult) : Except String StoredRow × List SupaCall :=
  match user with
  | none =>
    (Except.error "You must be signed in to view applications", [])
  | some u =>
    let calls := [SupaCall.selectAll "applications"
      [("id", applicationId), ("user_id", u.id)]]
    match resp with
    | .err e => (Except.error e.message, calls)
    | .ok row => (Except.ok row, calls)

/-! ## Concrete records used by witnesses and counterexamples -/

def personalInfo0 : PersonalInfo :=
  { firstName := "Ada", lastName := "Lovelace",
    email := "ada@example.com", phone := "+2348012345678",
    dateOfBirth := "2000-01-15", gender := .female,
    address := "1 Analytical Engine Way, London",
    nationality := "British", stateOfOrigin := "London",
    religion := none,
    disability := { hasDisability := false, details := none } }

def referee0 : Referee :=
  { name := "Charles Babbage", email := "babbage@example.com",
    phone := "+2348098765432", relationship := "Mentor",
    organization := "Analytical Society", position := "Chair" }

def formData0 : ApplicationFormData :=
  { personalInfo := personalInfo0,
    academicBackground :=
      { educationLevel := .ssce, tertiaryEducation := none,
        certificates := [{ type := "WAEC", grade := "A1", year := "2018" }] },
    programSelection :=
      { program := "software", course := "fullstack",
        startDate := "2025-03-01", studyMode := .fullTime,
        previousExperience := none,
        careerGoals := "Become a great software engineer" },
    accommodation :=
      { needsAccommodation := true, sponsorshipType := .self,
        sponsorDetails :=
          { name := "Self Sponsor", relationship := "Self",
            contact := "+2348012345678" } },
    referee := referee0 }

/-- formData0 with the referee email set equal to the applicant email. -/
def formDataDupEmail : ApplicationFormData :=
  { formData0 with referee := { referee0 with email := personalInfo0.email } }

def user0 : User :=
  { uid := "uid-1", email := "ada@example.com", displayName := "Ada" }

def supaUser0 : SupaUser := { id := "user-1" }

/-! ## Claims -/

/-- The three string checks of a name field are issue-free exactly when
the length is in range and the regex matches. -/
theorem nameChecksEqNilIff (s m1 m2 m3 : String) :
    ((if s.length < 2 then [m1] else []) ++
     (if 50 < s.length then [m2] else []) ++
     (if nameRegexTest s then ([] : List String) else [m3])) = [] ↔
    (2 ≤ s.length ∧ s.length ≤ 50 ∧ nameRegexTest s = true) := by
  by_cases h1 : s.length < 2 <;> by_cases h2 : 50 < s.length <;>
    by_cases h3 : nameRegexTest s = true
  all_goals simp [h1, h2, h3]
  all_goals omega

/-- C4 counterexample: the string "ab&#9;c" (with an embedded tab) has
length in [2,50] and contains a character that is neither an ASCII
letter nor a space, yet firstName validation accepts it: the regex
class is letters plus all JS whitespace, not letters plus space. -/
theorem C4_counterexample :
    firstNameIssues "ab\tc" = [] ∧
    2 ≤ "ab\tc".length ∧ "ab\tc".length ≤ 50 ∧
    ("ab\tc".data.all (fun c => c.isAlpha || c == ' ')) = false := by
  exact ⟨by decide, by decide, by decide, by decide⟩

/-- C4 (amended): name-field validation (firstName and lastName)
accepts a string exactly when its length is in [2,50] and every
character is an ASCII letter or a JS whitespace character (the regex
class admits any whitespace, not only the space); the empty string
matches the regex but is rejected by the length check. -/
theorem C4_name_validation (s : String) :
    (firstNameIssues s = [] ↔
      (2 ≤ s.length ∧ s.length ≤ 50 ∧ nameRegexTest s = true)) ∧
    (lastNameIssues s = [] ↔
      (2 ≤ s.length ∧ s.length ≤ 50 ∧ nameRegexTest s = true)) ∧
    nameRegexTest "" = true ∧ firstNameIssues "" ≠ [] ∧
    lastNameIssues "" ≠ [] := by
  refine ⟨?_, ?_, by decide, by decide, by decide⟩
  · exact nameChecksEqNilIff s _ _ _
  · exact nameChecksEqNilIff s _ _ _

/-- C4 witness: the amended characterization applied at the concrete
string Jo, whose length is in range and whose characters are letters:
it is accepted. -/
theorem C4_witness : firstNameIssues "Jo" = [] :=
  (C4_name_validation "Jo").1.mpr ⟨by decide, by decide, by decide⟩

/-- C5: a parsed date-of-birth passes validation exactly when it is on
or before 2007-02-27; 2007-02-28 and later are rejected.  The cutoff is
the module constant minBirthDate, computed from the fixed string
2025-02-27 by subtracting 18 from the year, not from the current
date. -/
theorem C5_dateOfBirth_cutoff (s : String) (d : JsDate)
    (h : parseDateOnly s = some d) :
    minBirthDate = ⟨2007, 2, 27⟩ ∧
    (dateOfBirthCheck s = true ↔ d.le ⟨2007, 2, 27⟩ = true) := by
  have hm : minBirthDate = ⟨2007, 2, 27⟩ := by decide
  refine ⟨hm, ?_⟩
  simp [dateOfBirthCheck, h, hm]

/-- C5 witness: the theorem applied at the concrete input 2007-02-27,
which parses and is accepted; 2007-02-28 is rejected. -/
theorem C5_witness :
    dateOfBirthCheck "2007-02-27" = true ∧
    dateOfBirthCheck "2007-02-28" = false := by
  refine ⟨?_, by decide⟩
  exact (C5_dateOfBirth_cutoff "2007-02-27" ⟨2007, 2, 27⟩
    (by decide)).2.mpr (by decide)

/-- C1 counterexample: with no authenticated user the Firebase-backed
handleSubmit does not return a failure result: it throws the
not-authenticated error to the caller, because that guard precedes its
try block.  Evaluated at the concrete record formData0 (it does issue
no remote call). -/
theorem C1_counterexample :
    (handleSubmit none ⟨false, none⟩ formData0 (.ok "a") (.ok "b")
      "2025-01-01T00:00:00Z").result =
      Except.error "You must be signed in to submit an application" ∧
    (handleSubmit none ⟨false, none⟩ formData0 (.ok "a") (.ok "b")
      "2025-01-01T00:00:00Z").calls = [] := by
  exact ⟨rfl, rfl⟩

/-- C1 (amended): with no authenticated user neither submission
operation issues any remote call; the Supabase-backed submitApplication
returns a success-false result carrying the not-authenticated message,
while the Firebase-backed handleSubmit instead throws that same message
to its caller as a fault. -/
theorem C1_no_user_no_remote_call (st : HookState)
    (fd : ApplicationFormData) (r1 r2 : FireResult) (ri : InsertResult)
    (now : String) :
    (handleSubmit none st fd r1 r2 now).calls = [] ∧
    (handleSubmit none st fd r1 r2 now).result =
      Except.error "You must be signed in to submit an application" ∧
    (submitApplication none fd ri now).2.1 = [] ∧
    (submitApplication none fd ri now).1 =
      { success := false,
        message := "You must be signed in to submit an application",
        applicationId := none } := by
  exact ⟨rfl, rfl, rfl, rfl⟩

/-- C2 counterexample: starting from the idle state, a first submit
request (user0, formData0) issues its insert and is left awaiting the
response with isSubmitting true; a second submit request arriving in
exactly that state issues another insert into applications — so two
remote inserts are in flight at once on a reachable execution. -/
theorem C2_counterexample :
    (handleSubmitInFlight (some user0) ⟨false, none⟩ formData0
      "t0").2.map FirestoreCall.collectionPath = ["applications"] ∧
    (handleSubmitInFlight (some user0) ⟨false, none⟩ formData0
      "t0").1.isSubmitting = true ∧
    (handleSubmitInFlight (some user0)
      (handleSubmitInFlight (some user0) ⟨false, none⟩ formData0 "t0").1
      formData0 "t1").2.map FirestoreCall.collectionPath =
      ["applications"] := by
  exact ⟨rfl, rfl, rfl⟩

/-- C2 (amended): handleSubmit enforces no re-entrancy guard: its
result, remote calls and toasts never depend on the hook state it
starts from (in particular not on a prior submission still being in
the submitting state), and with a user present every submit request
issues its insert against applications; the isSubmitting flag is set
for the duration of the call only for the UI to observe. -/
theorem C2_no_reentrancy_guard (u : User) (st st2 : HookState)
    (fd : ApplicationFormData) (r1 r2 : FireResult) (now : String) :
    (handleSubmit (some u) st fd r1 r2 now).result =
      (handleSubmit (some u) st2 fd r1 r2 now).result ∧
    (handleSubmit (some u) st fd r1 r2 now).calls =
      (handleSubmit (some u) st2 fd r1 r2 now).calls ∧
    (handleSubmit (some u) st fd r1 r2 now).toasts =
      (handleSubmit (some u) st2 fd r1 r2 now).toasts ∧
    (handleSubmitInFlight (some u) st fd now).1.isSubmitting = true ∧
    (handleSubmitInFlight (some u) st fd now).2.map
      FirestoreCall.collectionPath = ["applications"] := by
  cases r1 <;> cases r2 <;> exact ⟨rfl, rfl, rfl, rfl, rfl⟩

/-- C3 counterexample: one successful call of the Firebase-backed
handleSubmit performs two remote round trips, not a single one: the
insert into applications and a second insert into the per-user link
collection.  Evaluated at user0 and formData0. -/
theorem C3_counterexample :
    (handleSubmit (some user0) ⟨false, none⟩ formData0 (.ok "app-1")
      (.ok "link-1") "t0").calls.map FirestoreCall.collectionPath =
      ["applications", "users/uid-1/applications"] := by
  rfl

/-- C3 (amended): with a user present, the Supabase-backed
submitApplication issues exactly one remote insert, against the
applications table, and on success returns the identifier assigned by
that insert; the Firebase-backed handleSubmit issues exactly one insert
against the applications collection, whose assigned identifier it
returns on success, but adds a second round trip inserting a link row
into the per-user collection. -/
theorem C3_single_insert (u : User) (su : SupaUser) (st : HookState)
    (fd fd2 : ApplicationFormData) (i1 i2 j : String) (now : String) :
    (submitApplication (some su) fd2 (.ok j) now).2.1.map
      SupaCall.tableOf = ["applications"] ∧
    (submitApplication (some su) fd2 (.ok j) now).2.1.all
      SupaCall.isInsert = true ∧
    (submitApplication (some su) fd2 (.ok j) now).1 =
      { success := true,
        message := "Application submitted successfully",
        applicationId := some j } ∧
    (handleSubmit (some u) st fd (.ok i1) (.ok i2) now).calls.map
      FirestoreCall.collectionPath =
      ["applications", "users/" ++ u.uid ++ "/applications"] ∧
    (handleSubmit (some u) st fd (.ok i1) (.ok i2) now).result =
      Except.ok
        { success := true,
          message := "Application submitted successfully",
          applicationId := some i1 } := by
  exact ⟨rfl, rfl, rfl, rfl, rfl⟩

/-- C6: aggregate validation appends the cross-field issue, attached at
the referee email path, exactly when the referee email equals the
applicant email — whatever the per-section issues are — so equal emails
always fail aggregate validation; when the emails differ, the
cross-field check passes and the aggregate issues are exactly the
per-section ones. -/
theorem C6_referee_email_cross_check (a : ApplicationFormData) :
    (a.referee.email = a.personalInfo.email →
      applicationIssues a = sectionIssues a ++ [refereeEmailIssue] ∧
      refereeEmailIssue ∈ applicationIssues a ∧
      applicationIssues a ≠ []) ∧
    (a.referee.email ≠ a.personalInfo.email →
      applicationIssues a = sectionIssues a) := by
  constructor
  · intro h
    have hb : (a.referee.email == a.personalInfo.email) = true :=
      beq_iff_eq.mpr h
    refine ⟨by simp [applicationIssues, hb], ?_, ?_⟩
    · simp [applicationIssues, hb]
    · simp [applicationIssues, hb]
  · intro h
    have hb : (a.referee.email == a.personalInfo.email) = false := by
      simp [h]
    simp [applicationIssues, hb]

/-- C6 witness: the theorem applied at formDataDupEmail, whose referee
email equals the applicant email (the cross-field issue is raised), and
at formData0, whose emails differ (only section issues remain). -/
theorem C6_witness :
    refereeEmailIssue ∈ applicationIssues formDataDupEmail ∧
    applicationIssues formData0 = sectionIssues formData0 := by
  exact ⟨((C6_referee_email_cross_check formDataDupEmail).1 rfl).2.1,
         (C6_referee_email_cross_check formData0).2 (by decide)⟩

/-- C7: when the remote insert fails, submitApplicationForm returns the
distinguished duplicate-submission message exactly on the
unique-constraint error code 23505, and the generic supabase-error
message on any other code; the two messages are distinct whatever the
remote error text. -/
theorem C7_duplicate_distinguished (fd : ApplicationFormData)
    (e : SupabaseError) (h : submitFormChecks fd = true) :
    (e.code = "23505" →
      (submitApplicationForm fd (.err e)).1.message =
        "Duplicate submission detected.") ∧
    (e.code ≠ "23505" →
      (submitApplicationForm fd (.err e)).1.message =
        "Supabase error: " ++ e.message) ∧
    "Supabase error: " ++ e.message ≠ "Duplicate submission detected." := by
  simp only [submitFormChecks, Bool.and_eq_true, Bool.not_eq_true'] at h
  obtain ⟨⟨hfields, hemail⟩, hphone⟩ := h
  refine ⟨?_, ?_, ?_⟩
  · intro hc
    have hb : (e.code == "23505") = true := beq_iff_eq.mpr hc
    simp [submitApplicationForm, hfields, hemail, hphone, hb]
  · intro hc
    have hb : (e.code == "23505") = false := by simp [hc]
    simp [submitApplicationForm, hfields, hemail, hphone, hb]
  · intro hEq
    have hd : ('S' :: "upabase error: ".data) ++ e.message.data =
        'D' :: "uplicate submission detected.".data :=
      congrArg String.data hEq
    simp at hd

/-- C7 witness: the theorem applied at formData0 (which passes the
input checks) with a 23505 unique-constraint error and with an
unrelated error code. -/
theorem C7_witness :
    (submitApplicationForm formData0
      (.err ⟨"23505", "dup key"⟩)).1.message =
      "Duplicate submission detected." ∧
    (submitApplicationForm formData0 (.err ⟨"500", "boom"⟩)).1.message =
      "Supabase error: boom" := by
  refine ⟨?_, ?_⟩
  · exact (C7_duplicate_distinguished formData0 ⟨"23505", "dup key"⟩
      (by decide)).1 rfl
  · exact (C7_duplicate_distinguished formData0 ⟨"500", "boom"⟩
      (by decide)).2.1 (by decide)

/-- C8: with a user present, saveDraft without a draftId issues exactly
one insert of a new row with status draft and the creation timestamp
set; with a draftId it issues exactly one update of that row filtered
by the record id and the caller id — no insert, no second record, no
creation timestamp; each missing section of the partial record is
stored as the empty object, so an incomplete record never fails. -/
theorem C8_saveDraft (u : SupaUser) (fd : PartialApplicationFormData)
    (d i now : String) :
    (saveDraft (some u) fd none (.ok i) now).2 =
      [SupaCall.insert "applications" (.draftRow
        { user_id := u.id,
          personal_info := optSection fd.personalInfo,
          academic_background := optSection fd.academicBackground,
          program_selection := optSection fd.programSelection,
          accommodation := optSection fd.accommodation,
          referee := optSection fd.referee,
          status := "draft", updated_at := now,
          created_at := some now })] ∧
    (saveDraft (some u) fd none (.ok i) now).1 =
      Except.ok { success := true, draftId := i } ∧
    (saveDraft (some u) fd (some d) (.ok i) now).2 =
      [SupaCall.update "applications" [("id", d), ("user_id", u.id)]
        (.draftRow
          { user_id := u.id,
            personal_info := optSection fd.personalInfo,
            academic_background := optSection fd.academicBackground,
            program_selection := optSection fd.programSelection,
            accommodation := optSection fd.accommodation,
            referee := optSection fd.referee,
            status := "draft", updated_at := now,
            created_at := none })] ∧
    (saveDraft (some u) fd (some d) (.ok i) now).1 =
      Except.ok { success := true, draftId := i } ∧
    optSection (none : Option PersonalInfo) = DraftSection.emptyObj := by
  exact ⟨rfl, rfl, rfl, rfl, rfl⟩

/-- C9: every read or update the persistence operations issue filters
by the caller id — the single-record operations also by the record id —
and any stored row satisfying those filters has the caller as its
owner (and the requested id), so none of the three operations can
return or modify a record owned by a different user. -/
theorem C9_owner_scoping (u : SupaUser) (applicationId d now : String)
    (fd : PartialApplicationFormData) (qr : QueryResult)
    (sr : SingleResult) (ir : InsertResult) :
    (getUserApplications (some u) qr).2.map
      (fun c => match c with
        | SupaCall.selectAll t fs => (t, fs)
        | _ => ("", [])) =
      [("applications", [("user_id", u.id)])] ∧
    (∀ row : StoredRow,
      rowMatches row [("user_id", u.id)] = true → row.user_id = u.id) ∧
    (getApplicationById (some u) applicationId sr).2.map
      (fun c => match c with
        | SupaCall.selectAll t fs => (t, fs)
        | _ => ("", [])) =
      [("applications", [("id", applicationId), ("user_id", u.id)])] ∧
    (∀ row : StoredRow,
      rowMatches row [("id", applicationId), ("user_id", u.id)] = true →
        row.user_id = u.id ∧ row.id = applicationId) ∧
    (saveDraft (some u) fd (some d) ir now).2.map
      (fun c => match c with
        | SupaCall.update t fs _ => (t, fs)
        | _ => ("", [])) =
      [("applications", [("id", d), ("user_id", u.id)])] ∧
    (∀ row : StoredRow,
      rowMatches row [("id", d), ("user_id", u.id)] = true →
        row.user_id = u.id ∧ row.id = d) := by
  refine ⟨?_, ?_, ?_, ?_, ?_, ?_⟩
  · cases qr <;> rfl
  · intro row h
    simp [rowMatches, rowField] at h
    exact h
  · cases sr <;> rfl
  · intro row h
    simp [rowMatches, rowField] at h
    exact ⟨h.2, h.1⟩
  · cases ir <;> rfl
  · intro row h
    simp [rowMatches, rowField] at h
    exact ⟨h.2, h.1⟩

/-- C9 witness: the theorem applied at supaUser0 and a concrete stored
row matching the single-record filters: the filters force the row to
carry the caller as owner and the requested id. -/
theorem C9_witness :
    rowMatches ⟨"app-1", "user-1"⟩
      [("id", "app-1"), ("user_id", "user-1")] = true ∧
    (⟨"app-1", "user-1"⟩ : StoredRow).user_id = "user-1" ∧
    (⟨"app-1", "user-1"⟩ : StoredRow).id = "app-1" := by
  refine ⟨by decide, ?_, ?_⟩
  · exact ((C9_owner_scoping supaUser0 "app-1" "d0" "now0"
      ⟨none, none, none, none, none⟩ (.ok []) (.err ⟨"x", "y"⟩)
      (.ok "i0")).2.2.2.1 ⟨"app-1", "user-1"⟩ (by decide)).1
  · exact ((C9_owner_scoping supaUser0 "app-1" "d0" "now0"
      ⟨none, none, none, none, none⟩ (.ok []) (.err ⟨"x", "y"⟩)
      (.ok "i0")).2.2.2.1 ⟨"app-1", "user-1"⟩ (by decide)).2

/-- C10: whenever submitApplicationForm's input checks pass, the one
insert it issues carries, in its personal_info field, the first and
last names with surrounding whitespace trimmed, the email trimmed and
lowercased, and the phone only trimmed — the normalization is applied
to the document handed to the remote insert, whatever the remote
response is. -/
theorem C10_sanitization (fd : ApplicationFormData)
    (resp : InsertResult) (h : submitFormChecks fd = true) :
    (submitApplicationForm fd resp).2 =
      [SupaCall.insert "applications" (.submitFormRow
        { formData := fd,
          personal_info :=
            { firstName := jsTrim fd.personalInfo.firstName,
              lastName := jsTrim fd.personalInfo.lastName,
              email := jsToLowerCase (jsTrim fd.personalInfo.email),
              phone := jsTrim fd.personalInfo.phone },
          status := "pending" })] := by
  simp only [submitFormChecks, Bool.and_eq_true, Bool.not_eq_true'] at h
  obtain ⟨⟨hfields, hemail⟩, hphone⟩ := h
  cases resp with
  | ok id =>
    simp [submitApplicationForm, sanitizedPersonalInfoOf, hfields,
      hemail, hphone]
  | err e =>
    by_cases hc : (e.code == "23505") = true <;>
      simp [submitApplicationForm, sanitizedPersonalInfoOf, hfields,
        hemail, hphone, hc]

/-- C10 witness: the theorem applied at formData0; its fields carry no
surrounding whitespace and a lowercase email, so sanitization leaves
them unchanged in the inserted document. -/
theorem C10_witness :
    (submitApplicationForm formData0 (.ok "app-1")).2 =
      [SupaCall.insert "applications" (.submitFormRow
        { formData := formData0,
          personal_info :=
            { firstName := "Ada", lastName := "Lovelace",
              email := "ada@example.com", phone := "+2348012345678" },
          status := "pending" })] := by
  have h := C10_sanitization formData0 (.ok "app-1") (by decide)
  rw [h]
  decide

end Folio
